import Mathlib

/-!
Verification of the Memory Jar vector-recall subsystem of FableForge
(`src/lib/vectorDb.ts` together with the `memory_embeddings` table and the
`match_memories` SQL function from the database schema).

Modelling conventions used throughout this development:

* JavaScript numbers are modelled exactly: values produced by the rational
  arithmetic of the code itself are `ℚ`, and quantities that inherently involve
  square roots or trigonometry (`Math.sqrt`, `Math.sin`) live in `ℝ`.
* The external effects are oracles passed in as explicit arguments:
  the OpenAI HTTP call is a `ProviderOutcome`, the Supabase RPC outcome is a
  `QueryOutcome`, the pgvector `<=>` cosine-distance operator (an external
  extension, not code of this repository) is an abstract distance function
  `dist`, and the `LEFT JOIN public.memories` image lookup is `imgOf`.
* Stateful storage is explicit state passing: the `memory_embeddings` table is
  a `List MemoryEmbeddingRow`.
-/

/-- Dimensionality of the embedding space (`const dimensions = 384`). -/
def dimensions : Nat := 384

/-- JavaScript `\w` character class (ASCII letters, digits, underscore). -/
def isWordChar (c : Char) : Bool := c.isAlphanum || c = '_'

/-- One step of the JS string hash `hash = (hash << 5) - hash + code; hash = hash & hash`:
`hash << 5` wraps the shifted value to a signed 32-bit integer and `hash & hash`
wraps the final sum to a signed 32-bit integer. -/
def toInt32 (n : Int) : Int := (n + 2 ^ 31) % 2 ^ 32 - 2 ^ 31

/-- `hash = (hash << 5) - hash + word.charCodeAt(i); hash = hash & hash`. -/
def jsHashStep (h : Int) (c : Nat) : Int := toInt32 (toInt32 (h * 32) - h + c)

/-- The character-based hash loop of `generateSemanticMockEmbedding`
(initial value 0, folded over the character codes of the word). -/
def jsHash (w : String) : Int := w.data.foldl (fun h c => jsHashStep h c.toNat) 0

/-- `const baseDim = 300 + (Math.abs(hash) % 84)`. -/
def hashBucket (w : String) : Nat := 300 + (jsHash w).natAbs % 84

/-- JS `text.split(/\s+/)` modelled on character lists: split at whitespace
characters; consecutive separators yield empty tokens, which the subsequent
`filter((w) => w.length > 2)` removes, exactly as in the source pipeline. -/
def jsSplitWs (l : List Char) : List (List Char) :=
  l.foldr
    (fun c acc =>
      match acc with
      | [] => [[c]]
      | w :: ws => if c.isWhitespace then [] :: w :: ws else (c :: w) :: ws)
    [[]]

/-- The tokenizer of `generateSemanticMockEmbedding`:
`text.toLowerCase().replace(/[^\w\s]/g, "").split(/\s+/).filter((w) => w.length > 2)`. -/
def mockWords (text : String) : List String :=
  (((jsSplitWs ((text.data.map Char.toLower).filter fun c => isWordChar c || c.isWhitespace)).map
      fun w => (⟨w⟩ : String)).filter
    fun w => w.length > 2)

/-- The `semanticCategories` keyword table, copied entry for entry from the source. -/
def semanticCategories : List (String × List Nat) :=
  [("happy", [0, 1, 2]), ("joy", [0, 1, 3]), ("smile", [1, 2, 4]), ("laugh", [2, 3, 5]),
   ("brave", [10, 11, 12]), ("courage", [10, 11, 13]), ("fear", [15, 16, 17]),
   ("kind", [20, 21, 22]), ("love", [20, 22, 23]), ("friend", [25, 26, 27]),
   ("play", [50, 51, 52]), ("run", [53, 54, 55]), ("jump", [56, 57, 58]),
   ("learn", [60, 61, 62]), ("read", [63, 64, 65]), ("draw", [66, 67, 68]),
   ("swim", [70, 71, 72]), ("bike", [73, 74, 75]), ("climb", [76, 77, 78]),
   ("beach", [100, 101, 102]), ("ocean", [100, 103, 104]), ("sand", [101, 105]),
   ("forest", [110, 111, 112]), ("tree", [110, 113]), ("garden", [115, 116]),
   ("park", [120, 121, 122]), ("adventure", [125, 126, 127]), ("explore", [128, 129]),
   ("mom", [150, 151]), ("mother", [150, 152]), ("dad", [155, 156]),
   ("father", [155, 157]), ("family", [160, 161, 162]), ("brother", [165, 166]),
   ("sister", [167, 168]), ("grandma", [170, 171]), ("grandpa", [172, 173]),
   ("pet", [175, 176]), ("dog", [177]), ("cat", [178]),
   ("summer", [200, 201, 202]), ("winter", [205, 206, 207]), ("spring", [210, 211]),
   ("fall", [215, 216]), ("autumn", [215, 217]), ("birthday", [220, 221, 222]),
   ("holiday", [225, 226, 227]), ("christmas", [225, 228]), ("first", [230, 231]),
   ("school", [250, 251, 252]), ("celebrate", [255, 256]), ("graduation", [258, 259]),
   ("tooth", [260, 261]), ("walk", [265, 266]), ("talk", [268, 269]), ("new", [270, 271])]

/-- `semanticCategories[word]` record lookup. -/
def lookupCategory (w : String) : Option (List Nat) :=
  (semanticCategories.find? fun p => p.1 == w).map fun p => p.2

/-- Per-word body of the main loop: category dimensions get `+= 1.0`, then the
hash-derived bucket gets `+= 0.5` (the hash is computed for every word, not only
for words outside the table). -/
def applyWord (e : List ℚ) (w : String) : List ℚ :=
  let e1 :=
    match lookupCategory w with
    | some dims => dims.foldl (fun (acc : List ℚ) d => acc.set d (acc.getD d 0 + 1)) e
    | none => e
  e1.set (hashBucket w) (e1.getD (hashBucket w) 0 + 1 / 2)

/-- `embedding[380] = Math.min(words.length / 20, 1)`. -/
def lengthFeature (text : String) : ℚ := min ((mockWords text).length / 20 : ℚ) 1

/-- `embedding[381] = text.includes("!") ? 1 : 0`. -/
def excitementFeature (text : String) : ℚ := if text.data.contains '!' then 1 else 0

/-- `embedding[382] = text.includes("?") ? 1 : 0`. -/
def questionFeature (text : String) : ℚ := if text.data.contains '?' then 1 else 0

/-- `embedding[383] = words.filter((w) => w.length > 6).length / Math.max(words.length, 1)`. -/
def complexityFeature (text : String) : ℚ :=
  (((mockWords text).filter fun w => w.length > 6).length : ℚ) /
    (max (mockWords text).length 1 : ℚ)

/-- The 384-entry feature vector of `generateSemanticMockEmbedding` just before
the final normalization step. -/
def rawMockEmbedding (text : String) : List ℚ :=
  let e := ((mockWords text).foldl applyWord (List.replicate dimensions (0 : ℚ)))
  (((e.set 380 (lengthFeature text)).set 381 (excitementFeature text)).set 382
      (questionFeature text)).set 383 (complexityFeature text)

/-- Sum of squared entries of a rational vector; `magnitude` in the source is
`Math.sqrt` of this quantity. -/
def magnitudeSq (v : List ℚ) : ℚ := (v.map fun x => x * x).sum

/-- Sum of squared entries of a real vector (so the Euclidean norm is its
square root). -/
noncomputable def normSqR (v : List ℝ) : ℝ := (v.map fun x => x * x).sum

/-- `generateSemanticMockEmbedding`: normalize the raw vector when its
magnitude is positive (the source tests `magnitude > 0`, i.e.
`Math.sqrt(S) > 0`, which holds exactly when `S > 0`), otherwise return the
deterministic low-amplitude sine pattern `Math.sin(i * 0.1) * 0.01`. -/
noncomputable def generateSemanticMockEmbedding (text : String) : List ℝ :=
  let e := rawMockEmbedding text
  if 0 < magnitudeSq e then
    e.map fun v : ℚ => (v : ℝ) / Real.sqrt ((magnitudeSq e : ℚ) : ℝ)
  else
    (List.range dimensions).map fun i : ℕ => Real.sin ((i : ℝ) * (1 / 10)) * (1 / 100)

/-- Outcome of the `fetch` to the OpenAI embeddings endpoint, as observed by
`generateEmbedding`: the call threw, or it produced a response with an `ok`
status flag and an optional usable vector (`data.data?.[0]?.embedding`). -/
inductive ProviderOutcome where
  | threw : ProviderOutcome
  | response : Bool → Option (List ℚ) → ProviderOutcome

/-- True exactly for the provider outcomes that do not yield a usable vector:
a thrown network/auth error, a non-2xx response, or a body with no embedding. -/
def providerFailed : ProviderOutcome → Bool
  | .threw => true
  | .response ok emb => !ok || emb.isNone

/-- `generateEmbedding`: when an API key is configured and the provider call
succeeds with a usable vector, that vector is returned verbatim; in every other
case (no key, thrown error, non-ok response, missing vector) the deterministic
semantic mock embedding of the text is returned. The function is total: no
outcome of the provider call escapes as an error. -/
noncomputable def generateEmbedding (hasKey : Bool) (outcome : ProviderOutcome)
    (text : String) : List ℝ :=
  if hasKey then
    match outcome with
    | .response true (some emb) => emb.map fun x : ℚ => (x : ℝ)
    | _ => generateSemanticMockEmbedding text
  else
    generateSemanticMockEmbedding text

/-- `cosineSimilarity` from the source: 0 on a length mismatch, otherwise
`dot / (sqrt(normA) * sqrt(normB))`. -/
noncomputable def cosineSimilarity (a b : List ℝ) : ℝ :=
  if a.length ≠ b.length then 0
  else (List.zipWith (· * ·) a b).sum / (Real.sqrt (normSqR a) * Real.sqrt (normSqR b))

/-- One row of the `public.memory_embeddings` table. The schema declares
`id UUID PRIMARY KEY` (modelled as `rowId`, generated for each insert),
`user_id UUID NOT NULL` and `memory_id UUID` with no unique constraint.
`userId` is an `Option` because the client upsert payload in
`storeMemoryEmbedding` supplies no `user_id` at all. `created_at` (defaulted
by the database) plays no role in any claim and is omitted. -/
structure MemoryEmbeddingRow where
  rowId : Nat
  userId : Option String
  memoryId : String
  embedding : List ℝ
  content : String
  tags : List String
  month : Int
  year : Int

/-- The `SimilarMemory` interface returned by the search path. -/
structure SimilarMemory where
  memoryId : String
  caption : String
  imageUrl : String
  similarity : ℚ
  month : Int
  year : Int
deriving DecidableEq

/-- The `options` parameter of `findSimilarMemories`
(`limit`, `minSimilarity`, `yearFilter`, each optional). -/
structure FindOptions where
  limit : Option Nat
  minSimilarity : Option ℚ
  yearFilter : Option Int

/-- Outcome of the Supabase `rpc("match_memories", ...)` call: it ran against
the database, it returned an error object, or it threw. -/
inductive QueryOutcome where
  | ok : QueryOutcome
  | dbError : QueryOutcome
  | threw : QueryOutcome

/-- The `match_memories` SQL function: restrict to rows with
`user_id = user_id_filter` whose similarity `1 - (embedding <=> query)` is
strictly greater than `match_threshold`, order by distance ascending, limit to
`match_count`, and project each row to the result record (the `LEFT JOIN
public.memories` image lookup is the oracle `imgOf`, a missing match giving
SQL `NULL`, which surfaces to the TS layer as an absent string, modelled `""`).
`dist qe e` is the pgvector cosine distance `e <=> qe`, an operator of the
database extension modelled as an oracle. -/
def matchMemories (db : List MemoryEmbeddingRow) (dist : List ℝ → List ℝ → ℚ)
    (imgOf : String → Option String) (queryEmbedding : List ℝ) (threshold : ℚ)
    (count : Nat) (userFilter : String) : List SimilarMemory :=
  let candidates := db.filter fun r =>
    r.userId == some userFilter && decide (threshold < 1 - dist queryEmbedding r.embedding)
  let sorted := candidates.mergeSort fun r s =>
    decide (dist queryEmbedding r.embedding ≤ dist queryEmbedding s.embedding)
  (sorted.take count).map fun r =>
    { memoryId := r.memoryId, caption := r.content,
      imageUrl := (imgOf r.memoryId).getD "",
      similarity := 1 - dist queryEmbedding r.embedding,
      month := r.month, year := r.year }

/-- `getDemoSimilarMemories`: the fixed fallback result set. -/
def getDemoSimilarMemories : List SimilarMemory :=
  [{ memoryId := "demo-1",
     caption := "First day at the beach, building sandcastles with Dad",
     imageUrl := "https://images.unsplash.com/photo-1507525428034-b723cf961d3e?w=400",
     similarity := 92 / 100, month := 6, year := 2024 },
   { memoryId := "demo-2",
     caption := "Learning to ride a bike in the park",
     imageUrl := "https://images.unsplash.com/photo-1558618666-fcd25c85cd64?w=400",
     similarity := 85 / 100, month := 4, year := 2024 },
   { memoryId := "demo-3",
     caption := "Birthday party with friends and the big chocolate cake",
     imageUrl := "https://images.unsplash.com/photo-1464349153735-7db50ed83c84?w=400",
     similarity := 78 / 100, month := 9, year := 2024 }]

/-- `findSimilarMemories`: defaults `limit = 5` and `minSimilarity = 0.7`,
embeds the query, runs `match_memories`, applies the `.eq("year", yearFilter)`
refinement only when `yearFilter` is truthy (so `0` and `undefined` skip it),
and falls back to the demo list when the RPC reports an error or throws. -/
noncomputable def findSimilarMemories (db : List MemoryEmbeddingRow)
    (dist : List ℝ → List ℝ → ℚ) (imgOf : String → Option String) (hasKey : Bool)
    (prov : ProviderOutcome) (query userId : String) (options : FindOptions)
    (outcome : QueryOutcome) : List SimilarMemory :=
  let limit := options.limit.getD 5
  let minSimilarity := options.minSimilarity.getD (7 / 10)
  let queryEmbedding := generateEmbedding hasKey prov query
  match outcome with
  | .ok =>
    let rows := matchMemories db dist imgOf queryEmbedding minSimilarity limit userId
    match options.yearFilter with
    | some y => if y = 0 then rows else rows.filter fun m => m.year == y
    | none => rows
  | .dbError => getDemoSimilarMemories
  | .threw => getDemoSimilarMemories

/-- PostgREST upsert against `memory_embeddings`: with no `onConflict` option
the conflict target is the primary key `id` of the table; a row whose `id` matches
an existing one overwrites it, otherwise the row is appended. -/
def upsertByPK (tbl : List MemoryEmbeddingRow) (row : MemoryEmbeddingRow) :
    List MemoryEmbeddingRow :=
  if tbl.any fun r => r.rowId == row.rowId then
    tbl.map fun r => if r.rowId == row.rowId then row else r
  else
    tbl ++ [row]

/-- `storeMemoryEmbedding`: embed the caption and upsert
`{memory_id, embedding, content, tags, month, year}` (note: no `id` — the
database generates a fresh one, modelled by `freshId` — and no `user_id`).
The model returns the table state after the write. -/
noncomputable def storeMemoryEmbedding (hasKey : Bool) (prov : ProviderOutcome)
    (tbl : List MemoryEmbeddingRow) (freshId : Nat) (memoryId caption : String)
    (tags : List String) (month year : Int) : List MemoryEmbeddingRow :=
  upsertByPK tbl
    { rowId := freshId, userId := none, memoryId := memoryId,
      embedding := generateEmbedding hasKey prov caption,
      content := caption, tags := tags, month := month, year := year }

/-- The `months` array of `getMonthName`. -/
def monthNames : List String :=
  ["January", "February", "March", "April", "May", "June", "July", "August",
   "September", "October", "November", "December"]

/-- `getMonthName`: `months[month] || "Unknown"` (out-of-range and negative
indices read `undefined`, which is falsy). -/
def getMonthName (month : Int) : String :=
  match month with
  | .ofNat n => monthNames.getD n "Unknown"
  | .negSucc _ => "Unknown"

/-- JS `String.prototype.trim` on a character list: drop whitespace from both
ends. -/
def trimChars (l : List Char) : List Char :=
  ((l.dropWhile Char.isWhitespace).reverse.dropWhile Char.isWhitespace).reverse

/-- JS `String.prototype.trim`. -/
def jsTrim (s : String) : String := ⟨trimChars s.data⟩

/-- The first sentence of the narrative-context template. -/
def contextHeader : String :=
  "The following are real memories from this child\u0027s year that should be woven into the story:"

/-- The instruction sentence closing the narrative-context template. -/
def contextFooter : String :=
  "Use these memories naturally within the narrative to create a personalized story that references real experiences."

/-- The `[Memory i+1 - MonthName]: caption` lines, joined by newlines. -/
def memoryContextBlock (ms : List SimilarMemory) : String :=
  String.intercalate "\n"
    (ms.enum.map fun p =>
      "[Memory " ++ toString (p.1 + 1) ++ " - " ++ getMonthName p.2.month ++ "]: " ++
        p.2.caption)

/-- `buildNarrativeContext`: retrieve up to five memories similar to
`"A <theme> adventure story for a child"`, return `""` when none were
retrieved, and otherwise the trimmed template block (the template literal
starts with a newline and ends with a newline plus two spaces). -/
noncomputable def buildNarrativeContext (db : List MemoryEmbeddingRow)
    (dist : List ℝ → List ℝ → ℚ) (imgOf : String → Option String) (hasKey : Bool)
    (prov : ProviderOutcome) (outcome : QueryOutcome) (userId currentTheme : String)
    (year : Option Int) : String :=
  let similarMemories := findSimilarMemories db dist imgOf hasKey prov
    ("A " ++ currentTheme ++ " adventure story for a child") userId
    { limit := some 5, minSimilarity := none, yearFilter := year } outcome
  if similarMemories.length = 0 then ""
  else
    jsTrim ("\n" ++ contextHeader ++ "\n\n" ++ memoryContextBlock similarMemories ++
      "\n\n" ++ contextFooter ++ "\n  ")

/-- A one-row table used to instantiate the isolation theorem at a concrete
input: a single record owned by user "A". -/
def sampleRow : MemoryEmbeddingRow :=
  MemoryEmbeddingRow.mk 0 (some "A") "m1" [] "caption" [] 6 2024

theorem magnitudeSq_nil : magnitudeSq [] = 0 := rfl

theorem magnitudeSq_cons (x : ℚ) (v : List ℚ) :
    magnitudeSq (x :: v) = x * x + magnitudeSq v := by
  simp [magnitudeSq]

theorem magnitudeSq_nonneg (v : List ℚ) : 0 ≤ magnitudeSq v := by
  induction v with
  | nil => simp [magnitudeSq_nil]
  | cons x xs ih => rw [magnitudeSq_cons]; nlinarith [mul_self_nonneg x]

theorem sq_le_magnitudeSq (v : List ℚ) (x : ℚ) (hx : x ∈ v) :
    x * x ≤ magnitudeSq v := by
  induction v with
  | nil => cases hx
  | cons y ys ih =>
    rw [magnitudeSq_cons]
    rcases List.mem_cons.mp hx with h | h
    · subst h; nlinarith [magnitudeSq_nonneg ys]
    · nlinarith [ih h, mul_self_nonneg y]

theorem magnitudeSq_pos (v : List ℚ) (x : ℚ) (hx : x ∈ v) (hx0 : x ≠ 0) :
    0 < magnitudeSq v :=
  lt_of_lt_of_le (mul_self_pos.mpr hx0) (sq_le_magnitudeSq v x hx)

theorem foldl_set_length (dims : List Nat) (e : List ℚ) :
    (dims.foldl (fun (acc : List ℚ) d => acc.set d (acc.getD d 0 + 1)) e).length
      = e.length := by
  induction dims generalizing e with
  | nil => rfl
  | cons d ds ih => rw [List.foldl_cons, ih, List.length_set]

theorem applyWord_length (e : List ℚ) (w : String) :
    (applyWord e w).length = e.length := by
  cases h : lookupCategory w with
  | none => simp only [applyWord, h, List.length_set]
  | some dims =>
    simp only [applyWord, h, List.length_set]
    exact foldl_set_length dims e

theorem foldl_applyWord_length (ws : List String) (e : List ℚ) :
    (ws.foldl applyWord e).length = e.length := by
  induction ws generalizing e with
  | nil => rfl
  | cons w ws ih => rw [List.foldl_cons, ih, applyWord_length]

theorem rawMockEmbedding_length (t : String) : (rawMockEmbedding t).length = 384 := by
  unfold rawMockEmbedding
  rw [List.length_set, List.length_set, List.length_set, List.length_set,
    foldl_applyWord_length, List.length_replicate]
  rfl

theorem rawMockEmbedding_getElem_380 (t : String) :
    (rawMockEmbedding t)[380]? = some (lengthFeature t) := by
  unfold rawMockEmbedding
  rw [List.getElem?_set_ne (by decide), List.getElem?_set_ne (by decide),
    List.getElem?_set_ne (by decide), List.getElem?_set_self]
  rw [foldl_applyWord_length, List.length_replicate]
  decide

theorem rawMockEmbedding_getElem_381 (t : String) :
    (rawMockEmbedding t)[381]? = some (excitementFeature t) := by
  unfold rawMockEmbedding
  rw [List.getElem?_set_ne (by decide), List.getElem?_set_ne (by decide),
    List.getElem?_set_self]
  rw [List.length_set, foldl_applyWord_length, List.length_replicate]
  decide

theorem rawMockEmbedding_getElem_382 (t : String) :
    (rawMockEmbedding t)[382]? = some (questionFeature t) := by
  unfold rawMockEmbedding
  rw [List.getElem?_set_ne (by decide), List.getElem?_set_self]
  rw [List.length_set, List.length_set, foldl_applyWord_length, List.length_replicate]
  decide

theorem rawMockEmbedding_getElem_383 (t : String) :
    (rawMockEmbedding t)[383]? = some (complexityFeature t) := by
  unfold rawMockEmbedding
  rw [List.getElem?_set_self]
  rw [List.length_set, List.length_set, List.length_set, foldl_applyWord_length,
    List.length_replicate]
  decide

theorem mag_pos_of_words (t : String) (h : 0 < (mockWords t).length) :
    0 < magnitudeSq (rawMockEmbedding t) := by
  have hlf : 0 < lengthFeature t := by
    rw [lengthFeature]
    apply lt_min
    · have : (0:ℚ) < ((mockWords t).length : ℚ) := by exact_mod_cast h
      positivity
    · norm_num
  exact magnitudeSq_pos _ _ (List.getElem?_mem (rawMockEmbedding_getElem_380 t))
    (ne_of_gt hlf)

theorem mockWords_empty : mockWords "" = [] := by decide

theorem lengthFeature_empty : lengthFeature "" = 0 := by
  rw [lengthFeature, mockWords_empty]
  norm_num

theorem excitementFeature_empty : excitementFeature "" = 0 := by decide

theorem questionFeature_empty : questionFeature "" = 0 := by decide

theorem complexityFeature_empty : complexityFeature "" = 0 := by
  rw [complexityFeature, mockWords_empty]
  norm_num

theorem rawMockEmbedding_empty : rawMockEmbedding "" = List.replicate 384 0 := by
  rw [rawMockEmbedding, mockWords_empty, List.foldl_nil, lengthFeature_empty,
    excitementFeature_empty, questionFeature_empty, complexityFeature_empty]
  show ((((List.replicate dimensions (0:ℚ)).set 380 0).set 381 0).set 382 0).set 383 0
      = List.replicate 384 0
  rw [List.set_replicate_self, List.set_replicate_self, List.set_replicate_self,
    List.set_replicate_self]
  rfl

theorem magnitudeSq_replicate_zero (n : Nat) :
    magnitudeSq (List.replicate n 0) = 0 := by
  rw [magnitudeSq, List.map_replicate, mul_zero, List.sum_replicate, smul_zero]

/-- Claim C3: with no external embedding provider configured, the embedding
generator is a pure function of the input text: two calls on the same text,
whatever the provider oracle would have answered in each, return identical
vectors (the fallback consults no randomness or state). -/
theorem generateEmbedding_deterministic_no_provider (t : String)
    (o₁ o₂ : ProviderOutcome) :
    generateEmbedding false o₁ t = generateEmbedding false o₂ t := rfl

/-- Claim C7: whenever the provider call fails — it threw, the response was
non-2xx, or the body held no usable vector — `generateEmbedding` returns the
deterministic fallback embedding of the text; being a total function of its
oracles, it propagates no error to its caller. -/
theorem generateEmbedding_fallback_on_failure (t : String) (o : ProviderOutcome)
    (h : providerFailed o = true) :
    generateEmbedding true o t = generateSemanticMockEmbedding t := by
  cases o with
  | threw => rfl
  | response ok emb =>
    cases ok with
    | false => rfl
    | true =>
      cases emb with
      | none => rfl
      | some e => simp [providerFailed] at h

theorem generateEmbedding_fallback_on_failure_witness :
    generateEmbedding true ProviderOutcome.threw "beach" =
      generateSemanticMockEmbedding "beach" :=
  generateEmbedding_fallback_on_failure "beach" ProviderOutcome.threw rfl

/-- Claim C5: on the empty string the fallback embedding generator takes the
degenerate branch: the raw feature vector is all zeros, so instead of dividing
by the zero magnitude it returns the fixed low-amplitude sine pattern — a
vector of length 384 all of whose entries are genuine reals of absolute value
at most 1/100 (in particular no NaN or Infinity arises: no division by zero is
performed). -/
theorem mockEmbedding_empty_safe :
    (generateSemanticMockEmbedding "").length = 384 ∧
    generateSemanticMockEmbedding "" =
      ((List.range dimensions).map fun i : ℕ => Real.sin ((i : ℝ) * (1 / 10)) * (1 / 100)) ∧
    ∀ x ∈ generateSemanticMockEmbedding "", |x| ≤ 1 / 100 := by
  have hbranch : generateSemanticMockEmbedding "" =
      ((List.range dimensions).map fun i : ℕ => Real.sin ((i : ℝ) * (1 / 10)) * (1 / 100)) := by
    rw [generateSemanticMockEmbedding, rawMockEmbedding_empty, magnitudeSq_replicate_zero]
    rw [if_neg (lt_irrefl 0)]
  refine ⟨?_, hbranch, ?_⟩
  · rw [hbranch, List.length_map, List.length_range]; rfl
  · intro x hx
    rw [hbranch] at hx
    obtain ⟨i, _, rfl⟩ := List.mem_map.mp hx
    rw [abs_mul]
    calc |Real.sin ((i : ℝ) * (1 / 10))| * |(1 / 100 : ℝ)|
        ≤ 1 * |(1 / 100 : ℝ)| := by
          exact mul_le_mul_of_nonneg_right (Real.abs_sin_le_one _) (abs_nonneg _)
      _ = 1 / 100 := by rw [one_mul, abs_of_pos]; norm_num

theorem mockEmbedding_empty_safe_witness :
    |Real.sin (((0 : Nat) : ℝ) * (1 / 10)) * (1 / 100)| ≤ 1 / 100 :=
  mockEmbedding_empty_safe.2.2 _ (by
    rw [mockEmbedding_empty_safe.2.1]
    exact List.mem_map.mpr ⟨0, List.mem_range.mpr (by decide), rfl⟩)

/-- Claim C10: for every token the hash-derived bucket index `300 + |h| % 84`
lies in `[300, 383]`; every dimension in the keyword-category table is below
272, so hash contributions never touch a keyword dimension; and the final
scalar-feature assignments overwrite indices 380–383, so those entries of the
raw vector equal the scalar features regardless of prior hash increments. -/
theorem mock_hash_bucket_invariant :
    (∀ w : String, 300 ≤ hashBucket w ∧ hashBucket w ≤ 383) ∧
    (semanticCategories.all fun p => p.2.all fun d => d < 272) = true ∧
    ∀ t : String,
      (rawMockEmbedding t)[380]? = some (lengthFeature t) ∧
      (rawMockEmbedding t)[381]? = some (excitementFeature t) ∧
      (rawMockEmbedding t)[382]? = some (questionFeature t) ∧
      (rawMockEmbedding t)[383]? = some (complexityFeature t) := by
  refine ⟨?_, by decide, ?_⟩
  · intro w
    unfold hashBucket
    have : (jsHash w).natAbs % 84 < 84 := Nat.mod_lt _ (by norm_num)
    omega
  · intro t
    exact ⟨rawMockEmbedding_getElem_380 t, rawMockEmbedding_getElem_381 t,
      rawMockEmbedding_getElem_382 t, rawMockEmbedding_getElem_383 t⟩

theorem normSqR_nil : normSqR [] = 0 := rfl

theorem normSqR_cons (x : ℝ) (v : List ℝ) :
    normSqR (x :: v) = x * x + normSqR v := by
  simp [normSqR]

theorem normSqR_nonneg (v : List ℝ) : 0 ≤ normSqR v := by
  induction v with
  | nil => simp [normSqR_nil]
  | cons x xs ih => rw [normSqR_cons]; nlinarith [mul_self_nonneg x]

theorem normSqR_map_div (l : List ℚ) (m : ℝ) (hm : m ≠ 0) :
    normSqR (l.map fun v : ℚ => (v : ℝ) / m) = ((magnitudeSq l : ℚ) : ℝ) / (m * m) := by
  induction l with
  | nil => simp [normSqR_nil, magnitudeSq_nil]
  | cons x xs ih =>
    rw [List.map_cons, normSqR_cons, ih, magnitudeSq_cons]
    push_cast
    field_simp

theorem mockEmbedding_normalized (t : String)
    (h : 0 < magnitudeSq (rawMockEmbedding t)) :
    normSqR (generateSemanticMockEmbedding t) = 1 := by
  have hS : (0 : ℝ) < ((magnitudeSq (rawMockEmbedding t) : ℚ) : ℝ) := by
    exact_mod_cast h
  have hm : Real.sqrt ((magnitudeSq (rawMockEmbedding t) : ℚ) : ℝ) ≠ 0 :=
    ne_of_gt (Real.sqrt_pos.mpr hS)
  rw [generateSemanticMockEmbedding]
  rw [if_pos h, normSqR_map_div _ _ hm, Real.mul_self_sqrt hS.le,
    div_self (ne_of_gt hS)]

/-- Claim C4 (amended): for every input whose raw feature vector is nonzero,
the fallback path returns a vector of exact Euclidean norm 1; the provider
path, however, returns the provider vector verbatim with no re-normalization,
so its norm is whatever the provider supplied. -/
theorem generateEmbedding_unit_norm (t : String) (q : List ℚ)
    (h : 0 < magnitudeSq (rawMockEmbedding t)) :
    Real.sqrt (normSqR (generateSemanticMockEmbedding t)) = 1 ∧
    generateEmbedding true (ProviderOutcome.response true (some q)) t =
      q.map (fun x : ℚ => (x : ℝ)) := by
  refine ⟨?_, rfl⟩
  rw [mockEmbedding_normalized t h, Real.sqrt_one]

theorem generateEmbedding_unit_norm_witness :
    0 < magnitudeSq (rawMockEmbedding "beach day fun") ∧
    Real.sqrt (normSqR (generateSemanticMockEmbedding "beach day fun")) = 1 :=
  have h : 0 < magnitudeSq (rawMockEmbedding "beach day fun") :=
    mag_pos_of_words "beach day fun" (by decide)
  ⟨h, (generateEmbedding_unit_norm "beach day fun" [1] h).1⟩

/-- Counterexample to claim C4 as stated: for the non-degenerate input
"beach day fun", a provider response carrying the vector `[2]` is returned
unchanged by `generateEmbedding`, and its Euclidean norm is 2, not 1. -/
theorem generateEmbedding_provider_norm_cex :
    0 < magnitudeSq (rawMockEmbedding "beach day fun") ∧
    Real.sqrt (normSqR (generateEmbedding true
      (ProviderOutcome.response true (some [2])) "beach day fun")) ≠ 1 := by
  refine ⟨mag_pos_of_words "beach day fun" (by decide), ?_⟩
  have h1 : generateEmbedding true (ProviderOutcome.response true (some [2]))
      "beach day fun" = [((2 : ℚ) : ℝ)] := rfl
  rw [h1]
  have h2 : normSqR [((2 : ℚ) : ℝ)] = 4 := by
    rw [normSqR_cons, normSqR_nil]
    norm_num
  rw [h2, show (4 : ℝ) = 2 ^ 2 by norm_num, Real.sqrt_sq (by norm_num)]
  norm_num

theorem cs_step (x y d A B : ℝ) (hA : 0 ≤ A) (hB : 0 ≤ B) (h : d ^ 2 ≤ A * B) :
    (x * y + d) ^ 2 ≤ (x * x + A) * (y * y + B) := by
  rcases eq_or_lt_of_le hB with hB0 | hBpos
  · have hd : d = 0 := by nlinarith [sq_nonneg d]
    subst hd
    nlinarith [sq_nonneg x, sq_nonneg y, mul_nonneg (mul_self_nonneg y) hA]
  · nlinarith [sq_nonneg (x * B - y * d), mul_nonneg (mul_self_nonneg y)
      (sub_nonneg.mpr h), sub_nonneg.mpr h]

theorem list_inner_sq_le (a : List ℝ) :
    ∀ b : List ℝ, ((List.zipWith (· * ·) a b).sum) ^ 2 ≤ normSqR a * normSqR b := by
  induction a with
  | nil => intro b; simp [normSqR_nil]
  | cons x xs ih =>
    intro b
    cases b with
    | nil => simp [normSqR_nil]
    | cons y ys =>
      rw [List.zipWith_cons_cons, List.sum_cons, normSqR_cons, normSqR_cons]
      exact cs_step x y _ _ _ (normSqR_nonneg xs) (normSqR_nonneg ys) (ih ys)

/-- Claim C6: for equal-length unit-normalized real vectors, the
`cosineSimilarity` of the source (dot product over the product of the norms)
lies in the closed interval `[-1, 1]`. -/
theorem cosineSimilarity_bounded (a b : List ℝ) (hlen : a.length = b.length)
    (ha : normSqR a = 1) (hb : normSqR b = 1) :
    -1 ≤ cosineSimilarity a b ∧ cosineSimilarity a b ≤ 1 := by
  have hcs := list_inner_sq_le a b
  rw [ha, hb, mul_one] at hcs
  have habs : |(List.zipWith (· * ·) a b).sum| ≤ 1 :=
    (sq_le_one_iff_abs_le_one _).mp hcs
  rw [cosineSimilarity, if_neg (by simp [hlen]), ha, hb, Real.sqrt_one, one_mul,
    div_one]
  exact abs_le.mp habs

theorem cosineSimilarity_bounded_witness :
    -1 ≤ cosineSimilarity [1, 0] [0, 1] ∧ cosineSimilarity [1, 0] [0, 1] ≤ 1 :=
  cosineSimilarity_bounded [1, 0] [0, 1] rfl
    (by rw [normSqR_cons, normSqR_cons, normSqR_nil]; norm_num)
    (by rw [normSqR_cons, normSqR_cons, normSqR_nil]; norm_num)

/-- Claim C8 is violated by the code: the conflict target of the upsert is the
primary key `id`, which `storeMemoryEmbedding` never supplies (the database
generates a fresh one per insert), and `memory_embeddings` carries no unique
constraint on `memory_id`; storing the same `(memoryId, caption)` twice
therefore leaves two records for that key, not one. -/
theorem storeMemoryEmbedding_duplicate :
    ((storeMemoryEmbedding false ProviderOutcome.threw
        (storeMemoryEmbedding false ProviderOutcome.threw [] 0 "m1" "beach day" [] 6 2024)
        1 "m1" "beach day" [] 6 2024).filter fun r => r.memoryId == "m1").length = 2 := by
  decide

theorem matchMemories_similarity (db : List MemoryEmbeddingRow)
    (dist : List ℝ → List ℝ → ℚ) (imgOf : String → Option String) (qe : List ℝ)
    (threshold : ℚ) (count : Nat) (u : String) :
    ∀ m ∈ matchMemories db dist imgOf qe threshold count u,
      threshold < m.similarity := by
  intro m hm
  simp only [matchMemories] at hm
  obtain ⟨r, hr, rfl⟩ := List.mem_map.mp hm
  have hr2 := List.mem_mergeSort.mp (List.take_subset _ _ hr)
  have hp := (List.mem_filter.mp hr2).2
  simp only [Bool.and_eq_true, decide_eq_true_eq] at hp
  exact hp.2

/-- Claim C1 (amended): every result of `findSimilarMemories` has similarity
strictly greater than the effective `minSimilarity` (supplied value, or 0.7
when omitted) whenever the backing query succeeds; on the fallback path the
fixed demo list is returned regardless of the threshold, so the bound holds
there exactly when the effective threshold is below 0.78 (as the default 0.7
is). -/
theorem findSimilarMemories_threshold (db : List MemoryEmbeddingRow)
    (dist : List ℝ → List ℝ → ℚ) (imgOf : String → Option String) (hasKey : Bool)
    (prov : ProviderOutcome) (q u : String) (opts : FindOptions)
    (outcome : QueryOutcome)
    (h : outcome = QueryOutcome.ok ∨ opts.minSimilarity.getD (7 / 10) < 78 / 100) :
    ∀ m ∈ findSimilarMemories db dist imgOf hasKey prov q u opts outcome,
      opts.minSimilarity.getD (7 / 10) < m.similarity := by
  intro m hm
  cases outcome with
  | ok =>
    simp only [findSimilarMemories] at hm
    split at hm
    · split at hm
      · exact matchMemories_similarity _ _ _ _ _ _ _ m hm
      · exact matchMemories_similarity _ _ _ _ _ _ _ m (List.mem_filter.mp hm).1
    · exact matchMemories_similarity _ _ _ _ _ _ _ m hm
  | dbError =>
    rcases h with h | h
    · exact absurd h (by simp)
    · simp only [findSimilarMemories, getDemoSimilarMemories, List.mem_cons,
        List.not_mem_nil, or_false] at hm
      rcases hm with rfl | rfl | rfl
      · exact lt_of_lt_of_le h (by norm_num)
      · exact lt_of_lt_of_le h (by norm_num)
      · exact lt_of_lt_of_le h (by norm_num)
  | threw =>
    rcases h with h | h
    · exact absurd h (by simp)
    · simp only [findSimilarMemories, getDemoSimilarMemories, List.mem_cons,
        List.not_mem_nil, or_false] at hm
      rcases hm with rfl | rfl | rfl
      · exact lt_of_lt_of_le h (by norm_num)
      · exact lt_of_lt_of_le h (by norm_num)
      · exact lt_of_lt_of_le h (by norm_num)

/-- Counterexample to claim C1 as stated: with `minSimilarity = 0.95` supplied
and the backing query failing, the fallback demo list is returned and its
first entry has similarity 0.92, which is not greater than 0.95. -/
theorem findSimilarMemories_threshold_cex :
    ¬ ∀ m ∈ findSimilarMemories [] (fun _ _ => 0) (fun _ => none) false
        ProviderOutcome.threw "beach" "U1"
        (FindOptions.mk none (some (95 / 100)) none) QueryOutcome.dbError,
      (FindOptions.mk none (some (95 / 100)) none : FindOptions).minSimilarity.getD
          (7 / 10) < m.similarity := by
  intro hall
  have hmem : SimilarMemory.mk "demo-1"
      "First day at the beach, building sandcastles with Dad"
      "https://images.unsplash.com/photo-1507525428034-b723cf961d3e?w=400"
      (92 / 100) 6 2024 ∈
      findSimilarMemories [] (fun _ _ => 0) (fun _ => none) false
        ProviderOutcome.threw "beach" "U1"
        (FindOptions.mk none (some (95 / 100)) none) QueryOutcome.dbError := by
    show _ ∈ getDemoSimilarMemories
    simp [getDemoSimilarMemories]
  have := hall _ hmem
  norm_num [Option.getD] at this

theorem findSimilarMemories_threshold_witness :
    (FindOptions.mk none (some (1 / 2)) none : FindOptions).minSimilarity.getD (7 / 10) <
      (SimilarMemory.mk "demo-1"
        "First day at the beach, building sandcastles with Dad"
        "https://images.unsplash.com/photo-1507525428034-b723cf961d3e?w=400"
        (92 / 100) 6 2024).similarity :=
  findSimilarMemories_threshold [] (fun _ _ => 0) (fun _ => none) false
    ProviderOutcome.threw "beach" "U1" (FindOptions.mk none (some (1 / 2)) none)
    QueryOutcome.dbError (Or.inr (by norm_num [Option.getD])) _
    (by show _ ∈ getDemoSimilarMemories; simp [getDemoSimilarMemories])

theorem filter_and_filter {α : Type} (p q : α → Bool) (l : List α) :
    l.filter (fun a => q a && p a) = (l.filter q).filter (fun a => q a && p a) := by
  rw [List.filter_filter]
  apply List.filter_congr
  intro a _
  cases hq : q a <;> cases hp : p a <;> simp [hq, hp]

theorem matchMemories_filter_owner (db : List MemoryEmbeddingRow)
    (dist : List ℝ → List ℝ → ℚ) (imgOf : String → Option String) (qe : List ℝ)
    (th : ℚ) (count : Nat) (u : String) :
    matchMemories db dist imgOf qe th count u
      = matchMemories (db.filter fun r => r.userId == some u) dist imgOf qe th
          count u := by
  simp only [matchMemories]
  rw [filter_and_filter (fun r => decide (th < 1 - dist qe r.embedding))
    (fun r => r.userId == some u) db]

/-- Claim C2 (amended): when the backing query succeeds, the result of
`findSimilarMemories` depends only on the rows owned by the queried user — so
no record owned by another user is ever returned — and an owner with no stored
rows receives the empty list; when the backing query fails, the fixed
owner-independent demo list is returned instead. -/
theorem findSimilarMemories_owner_isolation (db : List MemoryEmbeddingRow)
    (dist : List ℝ → List ℝ → ℚ) (imgOf : String → Option String) (hasKey : Bool)
    (prov : ProviderOutcome) (q u : String) (opts : FindOptions) :
    findSimilarMemories db dist imgOf hasKey prov q u opts QueryOutcome.ok
      = findSimilarMemories (db.filter fun r => r.userId == some u) dist imgOf
          hasKey prov q u opts QueryOutcome.ok
    ∧ ((db.filter fun r => r.userId == some u) = [] →
        findSimilarMemories db dist imgOf hasKey prov q u opts QueryOutcome.ok
          = []) := by
  have hiso : findSimilarMemories db dist imgOf hasKey prov q u opts QueryOutcome.ok
      = findSimilarMemories (db.filter fun r => r.userId == some u) dist imgOf
          hasKey prov q u opts QueryOutcome.ok := by
    simp only [findSimilarMemories]
    rw [matchMemories_filter_owner]
  refine ⟨hiso, fun hemp => ?_⟩
  rw [hiso, hemp]
  simp only [findSimilarMemories, matchMemories, List.filter_nil, List.mergeSort_nil,
    List.take_nil, List.map_nil]
  split
  · split <;> simp
  · rfl

/-- Counterexample to claim C2 as stated: owner "U2" has no stored records,
yet when the backing query fails `findSimilarMemories` returns the non-empty
demo list, not the empty list. -/
theorem findSimilarMemories_owner_cex :
    findSimilarMemories [] (fun _ _ => 0) (fun _ => none) false
      ProviderOutcome.threw "beach" "U2" (FindOptions.mk none none none)
      QueryOutcome.dbError ≠ [] := by
  show getDemoSimilarMemories ≠ []
  simp [getDemoSimilarMemories]

theorem findSimilarMemories_owner_isolation_witness :
    (([sampleRow].filter fun r => r.userId == some "B") = []) ∧
    findSimilarMemories [sampleRow] (fun _ _ => 0) (fun _ => none) false
      ProviderOutcome.threw "q" "B" (FindOptions.mk none none none)
      QueryOutcome.ok = [] :=
  ⟨rfl, (findSimilarMemories_owner_isolation [sampleRow] (fun _ _ => 0)
      (fun _ => none) false ProviderOutcome.threw "q" "B"
      (FindOptions.mk none none none)).2 rfl⟩

theorem jsTrim_template (M : String) :
    jsTrim ("\n" ++ contextHeader ++ "\n\n" ++ M ++ "\n\n" ++ contextFooter ++ "\n  ")
      = contextHeader ++ "\n\n" ++ M ++ "\n\n" ++ contextFooter := by
  have hH : contextHeader.data = 'T' :: contextHeader.data.tail := rfl
  have hF : contextFooter.data = contextFooter.data.dropLast ++ ['.'] := by decide
  have h1 : ('\n').isWhitespace = true := by decide
  have h2 : (' ').isWhitespace = true := by decide
  have h3 : ('T').isWhitespace = false := by decide
  have h4 : ('.').isWhitespace = false := by decide
  have hd1 : ("\n" : String).data = ['\n'] := rfl
  have hd2 : ("\n\n" : String).data = ['\n', '\n'] := rfl
  have hd3 : ("\n  " : String).data = ['\n', ' ', ' '] := rfl
  apply String.ext
  show trimChars (("\n" ++ contextHeader ++ "\n\n" ++ M ++ "\n\n" ++ contextFooter ++ "\n  ").data)
      = (contextHeader ++ "\n\n" ++ M ++ "\n\n" ++ contextFooter).data
  rw [trimChars]
  simp only [String.data_append, hd1, hd2, hd3, List.cons_append, List.append_assoc,
    List.nil_append]
  rw [hH, hF]
  simp only [List.cons_append, List.append_assoc, List.nil_append, List.dropWhile_cons,
    h1, h2, h3, h4, if_true, if_false, Bool.false_eq_true, ite_false, ite_true]
  simp only [List.reverse_cons, List.reverse_append, List.append_assoc, List.cons_append,
    List.nil_append, List.reverse_nil]
  simp only [List.dropWhile_cons, h1, h2, h4, Bool.false_eq_true, ite_false, ite_true]
  simp only [List.reverse_cons, List.reverse_append, List.reverse_reverse,
    List.append_assoc, List.cons_append, List.nil_append, List.reverse_nil]

/-- Claim C9: the narrative context builder returns the empty string exactly
when the retrieved list of similar memories is empty; for a non-empty list it
returns the trimmed multi-line block: the header sentence, the enumerated
month-name/caption lines, and the closing instruction sentence for the story
generator. -/
theorem buildNarrativeContext_spec (db : List MemoryEmbeddingRow)
    (dist : List ℝ → List ℝ → ℚ) (imgOf : String → Option String) (hasKey : Bool)
    (prov : ProviderOutcome) (outcome : QueryOutcome) (u theme : String)
    (year : Option Int) :
    (buildNarrativeContext db dist imgOf hasKey prov outcome u theme year = "" ↔
      findSimilarMemories db dist imgOf hasKey prov
        ("A " ++ theme ++ " adventure story for a child") u
        (FindOptions.mk (some 5) none year) outcome = []) ∧
    (findSimilarMemories db dist imgOf hasKey prov
        ("A " ++ theme ++ " adventure story for a child") u
        (FindOptions.mk (some 5) none year) outcome ≠ [] →
      buildNarrativeContext db dist imgOf hasKey prov outcome u theme year
        = contextHeader ++ "\n\n" ++
            memoryContextBlock (findSimilarMemories db dist imgOf hasKey prov
              ("A " ++ theme ++ " adventure story for a child") u
              (FindOptions.mk (some 5) none year) outcome) ++ "\n\n" ++
            contextFooter) := by
  simp only [buildNarrativeContext]
  cases hms : findSimilarMemories db dist imgOf hasKey prov
      ("A " ++ theme ++ " adventure story for a child") u
      (FindOptions.mk (some 5) none year) outcome with
  | nil =>
    refine ⟨by simp, fun h => absurd rfl h⟩
  | cons m0 rest =>
    have hne : ¬ ((m0 :: rest : List SimilarMemory).length = 0) := by simp
    rw [if_neg hne]
    constructor
    · constructor
      · intro habs
        rw [jsTrim_template (memoryContextBlock (m0 :: rest))] at habs
        have hlen := congrArg String.length habs
        rw [String.length_append, String.length_append, String.length_append,
          String.length_append] at hlen
        have hhl : 0 < contextHeader.length := by decide
        have h0 : ("" : String).length = 0 := rfl
        rw [h0] at hlen
        omega
      · intro h; cases h
    · intro _
      exact jsTrim_template (memoryContextBlock (m0 :: rest))

theorem buildNarrativeContext_spec_witness :
    buildNarrativeContext [] (fun _ _ => 0) (fun _ => none) false
      ProviderOutcome.threw QueryOutcome.dbError "U1" "magic" none
      = contextHeader ++ "\n\n" ++
          memoryContextBlock (findSimilarMemories [] (fun _ _ => 0) (fun _ => none)
            false ProviderOutcome.threw
            ("A " ++ "magic" ++ " adventure story for a child") "U1"
            (FindOptions.mk (some 5) none none) QueryOutcome.dbError) ++ "\n\n" ++
        contextFooter :=
  (buildNarrativeContext_spec [] (fun _ _ => 0) (fun _ => none) false
      ProviderOutcome.threw QueryOutcome.dbError "U1" "magic" none).2
    (by simp [findSimilarMemories, getDemoSimilarMemories])
